import Mathlib

/-!
Verification of the NEXUS fraud-detection backend (`src/app/main.py.backup`)
against its natural-language specification.

The backend module defines five FastAPI route handlers and no module-level
mutable state.  Each handler body is a single `return` of a literal object:

* `analyze_transaction(data: dict)` returns
  `{"risk_score": 0.3, "risk_level": "low", "is_flagged": False}`;
* `analyze_check(data: dict)` returns
  `{"risk_score": 0.2, "risk_level": "low", "is_flagged": False}`;
* `dashboard()` returns `{"flagged_transactions": 5, "alerts": []}`;
* `root()` and `health()` return fixed informational objects.

Python floats that appear in the module (0.3, 0.2) are embedded as exact
rationals; every value here is decimal-representable so no rounding is
involved.  A handler that takes a parsed JSON body is embedded as a function
of a `Json` value; the possibility of a handler rejecting a request (e.g. a
FastAPI `HTTPException`) is embedded as the error branch of `ApiResult`,
which none of the source handlers ever uses.
-/

namespace Nexus

/-- JSON values: the type of the request bodies the POST endpoints accept
(the handlers declare `data: dict` with no schema, so any JSON value can
arrive). -/
inductive Json where
  | null
  | bool (b : Bool)
  | num (q : ℚ)
  | str (s : String)
  | arr (elems : List Json)
  | obj (fields : List (String × Json))

/-- Shape of the object returned by both analysis endpoints: exactly the
three keys `risk_score`, `risk_level`, `is_flagged` of the source literals. -/
structure ScoreResponse where
  risk_score : ℚ
  risk_level : String
  is_flagged : Bool

/-- Outcome of one request to an analysis endpoint: either a 200 response
with a body, or an HTTP error.  The source handlers contain no `raise` and
no validation, so in this development the error constructor is never
produced; it is present so that claims about rejection are statable. -/
inductive ApiResult (α : Type) where
  | ok (value : α)
  | httpError (statusCode : ℕ) (detail : String)

/-- Whether an `ApiResult` is a successful (200) response. -/
def ApiResult.isOk {α : Type} : ApiResult α → Bool
  | .ok _ => true
  | .httpError _ _ => false

/-- Shape of the object returned by the dashboard summary endpoint: exactly
the two keys `flagged_transactions` and `alerts` of the source literal. -/
structure DashboardResponse where
  flagged_transactions : ℕ
  alerts : List Json

/-- Handler of `POST /api/fraud/transactions/analyze` in the source:
`return {"risk_score": 0.3, "risk_level": "low", "is_flagged": False}`.
The body `data` is bound but never read. -/
def analyze_transaction (data : Json) : ApiResult ScoreResponse :=
  .ok { risk_score := 3/10, risk_level := "low", is_flagged := false }

/-- Handler of `POST /api/fraud/checks/analyze` in the source:
`return {"risk_score": 0.2, "risk_level": "low", "is_flagged": False}`.
The body `data` is bound but never read. -/
def analyze_check (data : Json) : ApiResult ScoreResponse :=
  .ok { risk_score := 2/10, risk_level := "low", is_flagged := false }

/-- Handler of `GET /api/fraud/dashboard/summary` in the source:
`return {"flagged_transactions": 5, "alerts": []}`.  A function of nothing:
the handler has no parameters and reads no module state. -/
def dashboard : DashboardResponse :=
  { flagged_transactions := 5, alerts := [] }

/-- Module-level mutable state of `app.main`: the module defines no global
variable that any handler reads or writes, so the state type is trivial. -/
abbrev ServerState := Unit

/-- State of the server process at startup. -/
def initialState : ServerState := ()

/-- One inbound HTTP request to the API surface of `app.main`. -/
inductive Request where
  | root
  | health
  | analyzeTransaction (data : Json)
  | analyzeCheck (data : Json)
  | dashboardSummary

/-- One HTTP response from the API surface of `app.main`. -/
inductive Response where
  | rootInfo (message status version : String)
  | healthStatus (status : String)
  | score (result : ApiResult ScoreResponse)
  | summary (s : DashboardResponse)

/-- Serving the dashboard query in a given server state invokes the
`dashboard` handler, which consults no state. -/
def querySummary (s : ServerState) : DashboardResponse := dashboard

/-- Dispatching one request: the route table of `app.main`.  Every handler
leaves the (trivial) module state unchanged, because the source handlers
perform no assignment to anything outside their own frame. -/
def step (s : ServerState) (req : Request) : ServerState × Response :=
  match req with
  | .root =>
      (s, .rootInfo "🚀 NEXUS - Operational Fraud Detection Platform"
            "operational" "0.1.0")
  | .health => (s, .healthStatus "healthy")
  | .analyzeTransaction d => (s, .score (analyze_transaction d))
  | .analyzeCheck d => (s, .score (analyze_check d))
  | .dashboardSummary => (s, .summary (querySummary s))

/-- Server state after serving a sequence of requests from a given state. -/
def execState (s : ServerState) (reqs : List Request) : ServerState :=
  reqs.foldl (fun st r => (step st r).1) s

/-- The dashboard summary observed after a fresh process has served the
given sequence of requests. -/
def summaryAfter (reqs : List Request) : DashboardResponse :=
  querySummary (execState initialState reqs)

/-- A sequence of analysis submissions, each either a transaction
(`true`) or a check (`false`) with its body, as a request list. -/
def analysisOps (bodies : List (Bool × Json)) : List Request :=
  bodies.map fun b =>
    if b.1 then Request.analyzeTransaction b.2 else Request.analyzeCheck b.2

/-- The §4.4 alert-classifier contract of the spec: fixed ordered thresholds
evaluated highest-first (`critical` at 0.9, `high` at 0.7, `medium` at 0.4,
else `low`), with the flag set exactly when the level is not `low`. -/
def classify (score : ℚ) : String × Bool :=
  let level : String :=
    if 9/10 ≤ score then "critical"
    else if 7/10 ≤ score then "high"
    else if 4/10 ≤ score then "medium"
    else "low"
  (level, level != "low")

/-- An analysis outcome agrees with the spec classifier: on a 200 response,
its `risk_level` and `is_flagged` are the ones `classify` derives from its
`risk_score`. -/
def MatchesClassifier : ApiResult ScoreResponse → Prop
  | .ok r =>
      r.risk_level = (classify r.risk_score).1 ∧
      r.is_flagged = (classify r.risk_score).2
  | .httpError _ _ => True

/-- An analysis outcome carries a risk score in the unit interval
(trivially satisfied by error outcomes, which carry no score). -/
def ScoreInUnitInterval : ApiResult ScoreResponse → Prop
  | .ok r => 0 ≤ r.risk_score ∧ r.risk_score ≤ 1
  | .httpError _ _ => True

/-- The C1 scenario body: account with baseline mean 1000, stddev 200,
3 transactions in 24h, submitting a transaction of amount 50000 (field
names as the bundled Vue client sends them, plus the baseline stddev). -/
def c1Input : Json :=
  .obj [("account_id", .str "ACC-001"),
        ("amount", .num 50000),
        ("avg_transaction_amount", .num 1000),
        ("stddev", .num 200),
        ("transaction_count_24h", .num 3)]

/-- The C2 scenario body: a check reported stolen and altered with
signature match score 0.1. -/
def c2Input : Json :=
  .obj [("check_number", .str "12345"),
        ("signature_match_score", .num (1/10)),
        ("is_stolen", .bool true),
        ("is_duplicate", .bool false),
        ("is_altered", .bool true)]

/-- An invalid submission body: a negative amount. -/
def negAmountInput : Json :=
  .obj [("account_id", .str "ACC-002"),
        ("amount", .num (-50))]

/-- C1: at the claim scenario (baseline mean 1000, stddev 200, count 3,
amount 50000) the transaction endpoint returns the hardcoded result with
risk score 0.3, level low, unflagged — below the claimed critical
threshold 0.9, with no amount-deviation reason in the response. -/
theorem c1_stub_result_at_scenario :
    analyze_transaction c1Input =
      .ok { risk_score := 3/10, risk_level := "low", is_flagged := false } ∧
    (3/10 : ℚ) < 9/10 := by
  refine ⟨rfl, by norm_num⟩

/-- C2: at the claim scenario (stolen, altered, signature score 0.1) the
check endpoint returns the hardcoded result with risk score 0.2, level low,
unflagged — not the claimed clamped score 1.0 at level critical. -/
theorem c2_stub_result_at_stolen_check :
    analyze_check c2Input =
      .ok { risk_score := 2/10, risk_level := "low", is_flagged := false } ∧
    (2/10 : ℚ) < 9/10 ∧ (2/10 : ℚ) ≠ 1 := by
  refine ⟨rfl, by norm_num, by norm_num⟩

/-- C3: every response either endpoint returns agrees with the fixed
threshold classifier — its risk level is the one the thresholds derive from
its risk score (0.3 and 0.2 both classify as low) and it is flagged exactly
when that level is not low. -/
theorem c3_responses_match_classifier (d : Json) :
    MatchesClassifier (analyze_transaction d) ∧
    MatchesClassifier (analyze_check d) := by
  constructor <;>
    simp only [MatchesClassifier, analyze_transaction, analyze_check,
      classify] <;>
    norm_num

/-- C4 counterexample: a submission with a negative amount is not rejected —
the transaction endpoint returns its ordinary 200 hardcoded result, not an
InvalidInput error. -/
theorem c4_negative_amount_not_rejected :
    analyze_transaction negAmountInput =
      .ok { risk_score := 3/10, risk_level := "low", is_flagged := false } ∧
    (analyze_transaction negAmountInput).isOk = true := by
  exact ⟨rfl, rfl⟩

/-- C4 amended: the endpoints perform no input validation at all — every
submission body, including negative amounts and out-of-range signature
scores, succeeds with the fixed stub result, and scoring never fails. -/
theorem c4_no_validation_every_body_accepted (d : Json) :
    (analyze_transaction d).isOk = true ∧
    (analyze_check d).isOk = true ∧
    analyze_transaction d =
      .ok { risk_score := 3/10, risk_level := "low", is_flagged := false } ∧
    analyze_check d =
      .ok { risk_score := 2/10, risk_level := "low", is_flagged := false } := by
  exact ⟨rfl, rfl, rfl, rfl⟩

/-- C5: on a fresh process the dashboard summary is already the constant
object with `flagged_transactions = 5` and stays exactly that constant
after a submission whose result is unflagged — the summary has no
`transactions_today`, `critical_alerts` or `stolen_checks_detected` fields
and counts nothing. -/
theorem c5_summary_constant_ignores_submissions :
    summaryAfter [] = { flagged_transactions := 5, alerts := [] } ∧
    summaryAfter [Request.analyzeTransaction c1Input] =
      { flagged_transactions := 5, alerts := [] } ∧
    analyze_transaction c1Input =
      .ok { risk_score := 3/10, risk_level := "low", is_flagged := false } ∧
    (5 : ℕ) ≠ 0 := by
  exact ⟨rfl, rfl, rfl, by norm_num⟩

/-- C6: every transaction analysis returns a risk score in the unit
interval, and the response is the same for any two bodies — in particular
adding one more triggering signal to a body never lowers the score and
never removes a reason (no response ever carries a reason). -/
theorem c6_score_bounded_and_input_independent (d e : Json) :
    ScoreInUnitInterval (analyze_transaction d) ∧
    analyze_transaction e = analyze_transaction d := by
  refine ⟨?_, rfl⟩
  simp only [ScoreInUnitInterval, analyze_transaction]
  norm_num

/-- C7: across every sequence of further requests the dashboard summary is
unchanged, so no counter it carries ever decreases (its single counter
`flagged_transactions` is the constant 5 for the whole process lifetime). -/
theorem c7_summary_counters_never_decrease (ops more : List Request) :
    (summaryAfter ops).flagged_transactions ≤
      (summaryAfter (ops ++ more)).flagged_transactions ∧
    summaryAfter (ops ++ more) = summaryAfter ops := by
  exact ⟨le_refl _, rfl⟩

/-- C8: both analysis endpoints return fixed hardcoded results — the
transaction endpoint always 0.3 / low / unflagged, the check endpoint
always 0.2 / low / unflagged — identical across any two input bodies. -/
theorem c8_endpoints_hardcode_results (d e : Json) :
    analyze_transaction d =
      .ok { risk_score := 3/10, risk_level := "low", is_flagged := false } ∧
    analyze_check d =
      .ok { risk_score := 2/10, risk_level := "low", is_flagged := false } ∧
    analyze_transaction d = analyze_transaction e ∧
    analyze_check d = analyze_check e := by
  exact ⟨rfl, rfl, rfl, rfl⟩

/-- C10: submitting any sequence of transaction or check analyses leaves
the server state untouched and the dashboard summary identical to its
value on a fresh process, the fixed object with `flagged_transactions = 5`
and an empty alert list. -/
theorem c10_analysis_calls_do_not_affect_summary (bodies : List (Bool × Json)) :
    execState initialState (analysisOps bodies) = initialState ∧
    summaryAfter (analysisOps bodies) = summaryAfter [] ∧
    summaryAfter (analysisOps bodies) =
      { flagged_transactions := 5, alerts := [] } := by
  exact ⟨rfl, rfl, rfl⟩

end Nexus
